import Mathlib

/-!
Verification development for the inky73-slideshow repository.

Shallow embedding of the two source files:
  * slideshow.py    — rotation controller (main loop), state store
                      (save_state / load_state), capture-date extractor
                      (extract_capture_date) and the date / elapsed-time
                      label computation (format_date_and_elapsed_time)
  * preprocess_inky73.py — batch preprocessor (process_one_image)

External collaborators (the Python standard library, PIL, piexif, the
inky display driver and the file system) are modelled as explicit inputs
of each step: the directory listing, the stream of random draws feeding
random.shuffle, the success or failure of prepare_image, and the success
or failure of the display sink are parameters of one loop iteration.
-/

namespace Slideshow

/-! ## State store (save_state / load_state, slideshow.py lines 65-90)

The persisted file content is modelled at the JSON level: the value can
be a dict (possibly missing either key), a bare list (legacy format), or
anything else (malformed).  A missing file is `Option.none` around it. -/

/-- Shapes the JSON value in the state file can take, as distinguished by
load_state: a dict with optional total_count and queue keys, a bare list
of paths, or any other JSON value. -/
inductive Persisted where
  | record (total_count : Option Nat) (queue : Option (List String))
  | legacy (queue : List String)
  | other
deriving DecidableEq, Repr

/-- save_state (slideshow.py lines 65-73): serializes the dict with keys
total_count and queue.  The write itself can fail on the file system;
that failure is caught and logged inside save_state, so the pure content
written on success is what we model. -/
def save_state (queue : List String) (total_count : Nat) : Persisted :=
  Persisted.record (some total_count) (some queue)

/-- load_state (slideshow.py lines 75-90): a dict yields
(total_count or 0, queue or []); a bare list yields (0, the list);
a missing, unreadable or otherwise-shaped file yields (0, []). -/
def load_state (file : Option Persisted) : Nat × List String :=
  match file with
  | none => (0, [])
  | some (Persisted.record t q) => (t.getD 0, q.getD [])
  | some (Persisted.legacy q) => (0, q)
  | some Persisted.other => (0, [])

/-! ## Shuffle (random.shuffle, Python standard library)

random.shuffle performs a Fisher-Yates shuffle: for i from len-1 down
to 1 it draws j uniformly in [0, i] and swaps positions i and j.  The
random draws are modelled as an input list of naturals, reduced modulo
i+1 exactly as randbelow constrains them. -/

/-- Swap the elements at positions i and j of a list; out-of-range
indices leave the list unchanged. -/
def pySwap (l : List α) (i j : Nat) : List α :=
  match l.get? i, l.get? j with
  | some a, some b => (l.set i b).set j a
  | _, _ => l

/-- Fisher-Yates descent: argument i is the current position, counting
down to 1; each step consumes one random draw.  If the draw stream runs
out the remaining positions are left in place. -/
def shuffleAux : List Nat → Nat → List α → List α
  | _, 0, l => l
  | [], _ + 1, l => l
  | r :: rs, i + 1, l => shuffleAux rs i (pySwap l (i + 1) (r % (i + 2)))

/-- Model of random.shuffle applied to a list, driven by the given
stream of random draws. -/
def pyShuffle (rs : List Nat) (l : List α) : List α :=
  shuffleAux rs (l.length - 1) l

theorem cons_set_perm {t : List α} {k : Nat} {b : α} (hk : t.get? k = some b) (x : α) :
    (b :: t.set k x).Perm (x :: t) := by
  induction t generalizing k with
  | nil => simp at hk
  | cons c t ih =>
    cases k with
    | zero =>
      simp only [List.get?_cons_zero, Option.some.injEq] at hk
      subst hk
      simpa [List.set] using List.Perm.swap x c t
    | succ k =>
      simp only [List.get?_cons_succ] at hk
      have h1 : (b :: (c :: t).set (k + 1) x).Perm (c :: b :: t.set k x) := by
        simpa [List.set] using List.Perm.swap c b (t.set k x)
      refine h1.trans ?_
      have h2 : (c :: b :: t.set k x).Perm (c :: x :: t) :=
        List.Perm.cons c (ih hk)
      exact h2.trans (List.Perm.swap x c t)

theorem set_set_perm {l : List α} {i j : Nat} {a b : α}
    (hi : l.get? i = some a) (hj : l.get? j = some b) :
    ((l.set i b).set j a).Perm l := by
  induction l generalizing i j with
  | nil => simp at hi
  | cons x t ih =>
    cases i with
    | zero =>
      simp only [List.get?_cons_zero, Option.some.injEq] at hi
      subst hi
      cases j with
      | zero => simp [List.set]
      | succ j =>
        simp only [List.get?_cons_succ] at hj
        simpa [List.set] using cons_set_perm hj x
    | succ i =>
      simp only [List.get?_cons_succ] at hi
      cases j with
      | zero =>
        simp only [List.get?_cons_zero, Option.some.injEq] at hj
        subst hj
        simpa [List.set] using cons_set_perm hi x
      | succ j =>
        simpa [List.set] using List.Perm.cons x (ih hi hj)

theorem pySwap_perm (l : List α) (i j : Nat) : (pySwap l i j).Perm l := by
  unfold pySwap
  cases hi : l.get? i with
  | none => simp
  | some a =>
    cases hj : l.get? j with
    | none => simp
    | some b => simpa using set_set_perm hi hj

theorem shuffleAux_perm (rs : List Nat) (i : Nat) (l : List α) :
    (shuffleAux rs i l).Perm l := by
  induction rs generalizing i l with
  | nil => cases i <;> simp [shuffleAux]
  | cons r rs ih =>
    cases i with
    | zero => simp [shuffleAux]
    | succ i =>
      exact (ih i (pySwap l (i + 1) (r % (i + 2)))).trans
        (pySwap_perm l (i + 1) (r % (i + 2)))

theorem pyShuffle_perm (rs : List Nat) (l : List α) : (pyShuffle rs l).Perm l :=
  shuffleAux_perm rs (l.length - 1) l

theorem pyShuffle_length (rs : List Nat) (l : List α) :
    (pyShuffle rs l).length = l.length :=
  (pyShuffle_perm rs l).length_eq

/-! ## Rotation controller (main, slideshow.py lines 164-228)

The in-memory state of the loop is the display queue, total_in_cycle and
the content of the state file.  One iteration of the while-True body is
a pure step function over that state, parameterised by the environment
of the iteration: the directory listing seen by os.listdir (already
filtered to image extensions), the random draws feeding random.shuffle,
whether prepare_image returns an image (as opposed to None), and whether
the set_image / show calls on the display succeed. -/

/-- In-memory controller state plus the state-file content. -/
structure LoopState where
  queue : List String
  total : Nat
  persisted : Option Persisted
deriving DecidableEq, Repr

/-- Inputs one loop iteration draws from the outside world. -/
structure IterEnv where
  listing : List String
  randoms : List Nat
  prepareOk : Bool
  displayOk : Bool
deriving DecidableEq, Repr

/-- Which sleep the iteration ends with: the 60 second backoff of the
empty-directory branch (line 198) or the configured interval (line 221). -/
inductive SleepKind where
  | emptyBackoff
  | interval
deriving DecidableEq, Repr

/-- Observable effects of one iteration: whether anything was handed to
the display sink (set_image / show attempted), whether save_state ran,
and which sleep ended the iteration. -/
structure IterEffects where
  sinkCalled : Bool
  saved : Bool
  slept : SleepKind
deriving DecidableEq, Repr

/-- Refill (slideshow.py lines 192-203, nonempty-listing case): shuffle
the re-enumerated file list into the queue and set total_in_cycle to the
length of that queue. -/
def refill (e : IterEnv) (s : LoopState) : LoopState :=
  let all_files := pyShuffle e.randoms e.listing
  { queue := all_files, total := all_files.length, persisted := s.persisted }

/-- Select / Render / Display / persist part of the iteration
(slideshow.py lines 205-218): pop the front path; if prepare_image
returns None nothing else happens; on display success save_state runs on
the popped queue; on display failure the path goes back to the front and
nothing is saved. -/
def serveNext (e : IterEnv) (s : LoopState) : LoopState × IterEffects :=
  match s.queue with
  | [] => (s, ⟨false, false, SleepKind.interval⟩)
  | image_path :: rest =>
    if e.prepareOk then
      if e.displayOk then
        ({ queue := rest, total := s.total,
           persisted := some (save_state rest s.total) },
         ⟨true, true, SleepKind.interval⟩)
      else
        ({ queue := image_path :: rest, total := s.total, persisted := s.persisted },
         ⟨true, false, SleepKind.interval⟩)
    else
      ({ queue := rest, total := s.total, persisted := s.persisted },
       ⟨false, false, SleepKind.interval⟩)

/-- One iteration of the while-True body (slideshow.py lines 190-221):
if the queue is empty and the directory has no images, the state file is
removed and the loop backs off 60 seconds; otherwise an empty queue is
refilled and then one path is served.  The iteration always ends in a
sleep. -/
def mainStep (e : IterEnv) (s : LoopState) : LoopState × IterEffects :=
  if s.queue.isEmpty then
    if e.listing.isEmpty then
      ({ queue := s.queue, total := s.total, persisted := none },
       ⟨false, false, SleepKind.emptyBackoff⟩)
    else
      serveNext e (refill e s)
  else
    serveNext e s

/-- Startup protocol (slideshow.py lines 180-188): enumerate the
directory, load the saved state, reset the queue when the counts differ,
and take the current count as total_in_cycle.  Loading does not modify
the state file. -/
def startupState (listing : List String) (file : Option Persisted) : LoopState :=
  let loaded := load_state file
  let saved_count := loaded.1
  let display_queue := if listing.length ≠ saved_count then [] else loaded.2
  { queue := display_queue, total := listing.length, persisted := file }

/-- Iterated main loop: fold the step function over a list of
per-iteration environments. -/
def runFrom (s : LoopState) (envs : List IterEnv) : LoopState :=
  envs.foldl (fun t e => (mainStep e t).1) s

/-- The Cycle State invariant of the spec. -/
def QInv (s : LoopState) : Prop := s.queue.length ≤ s.total

instance (s : LoopState) : Decidable (QInv s) := by
  unfold QInv; infer_instance

theorem serveNext_QInv (e : IterEnv) (s : LoopState) (h : QInv s) :
    QInv (serveNext e s).1 := by
  unfold QInv at *
  unfold serveNext
  cases hq : s.queue with
  | nil => simpa using h
  | cons p rest =>
    rw [hq] at h
    simp only [List.length_cons] at h
    by_cases hp : e.prepareOk
    · by_cases hd : e.displayOk
      · simp [hp, hd]
        omega
      · simp [hp, hd]
        omega
    · simp [hp]
      omega

theorem mainStep_QInv (e : IterEnv) (s : LoopState) (h : QInv s) :
    QInv (mainStep e s).1 := by
  unfold mainStep
  by_cases hq : s.queue.isEmpty
  · by_cases hl : e.listing.isEmpty
    · simp only [hq, hl, if_true]
      simp [QInv, List.isEmpty_iff.mp hq]
    · simp only [hq, hl, if_true, if_false]
      exact serveNext_QInv e (refill e s) (le_of_eq rfl)
  · simp only [hq, if_false]
    exact serveNext_QInv e s h

theorem runFrom_QInv (envs : List IterEnv) (s : LoopState) (h : QInv s) :
    QInv (runFrom s envs) := by
  induction envs generalizing s with
  | nil => simpa [runFrom] using h
  | cons e es ih =>
    simpa [runFrom] using ih (mainStep e s).1 (mainStep_QInv e s h)

theorem startup_QInv (listing : List String) (file : Option Persisted)
    (h : (load_state file).2.length ≤ (load_state file).1 ∨
      listing.length ≠ (load_state file).1) :
    QInv (startupState listing file) := by
  unfold QInv startupState
  by_cases hc : listing.length ≠ (load_state file).1
  · simp [hc]
  · push_neg at hc
    rcases h with h | h
    · simp only [hc, ne_eq, not_true_eq_false, if_false]
      omega
    · exact absurd hc h

/-! ## Claim theorems about the rotation controller -/

/-- C1: after a Refill step of the main loop with a non-empty file list
of n paths, the display queue is a permutation of the enumerated
collection — the same n paths, each exactly once (no duplicates are
introduced) — and total_in_cycle equals n. -/
theorem refill_is_permutation (e : IterEnv) (s : LoopState) (_hne : e.listing ≠ []) :
    (refill e s).queue.Perm e.listing ∧
    (refill e s).total = e.listing.length ∧
    (∀ p, p ∈ (refill e s).queue ↔ p ∈ e.listing) ∧
    (e.listing.Nodup → (refill e s).queue.Nodup) := by
  have hperm : (refill e s).queue.Perm e.listing := pyShuffle_perm e.randoms e.listing
  refine ⟨hperm, ?_, fun p => hperm.mem_iff, fun hnd => hperm.nodup_iff.mpr hnd⟩
  simpa [refill] using pyShuffle_length e.randoms e.listing

/-- C1 witness: a concrete refill over a three-file collection. -/
theorem refill_is_permutation_witness :
    (refill ⟨["a.jpg", "b.jpg", "c.png"], [1, 0], true, true⟩
        ⟨[], 0, none⟩).queue.Perm ["a.jpg", "b.jpg", "c.png"] ∧
    (refill ⟨["a.jpg", "b.jpg", "c.png"], [1, 0], true, true⟩ ⟨[], 0, none⟩).total = 3 ∧
    (∀ p, p ∈ (refill ⟨["a.jpg", "b.jpg", "c.png"], [1, 0], true, true⟩
        ⟨[], 0, none⟩).queue ↔ p ∈ ["a.jpg", "b.jpg", "c.png"]) ∧
    (List.Nodup ["a.jpg", "b.jpg", "c.png"] →
      (refill ⟨["a.jpg", "b.jpg", "c.png"], [1, 0], true, true⟩ ⟨[], 0, none⟩).queue.Nodup) :=
  refill_is_permutation ⟨["a.jpg", "b.jpg", "c.png"], [1, 0], true, true⟩
    ⟨[], 0, none⟩ (by decide)

/-- C2 counterexample: a legacy persisted record with one path, loaded
while the current collection is empty, is kept by the startup protocol
(the counts 0 and 0 match, so no drift reset fires) while total_in_cycle
becomes 0 — a reachable post-startup state with len(queue) = 1 > 0 =
total_count, violating the invariant the claim asserts for all reachable
states. -/
theorem legacy_startup_violates_invariant :
    ¬ QInv (startupState [] (some (Persisted.legacy ["a.jpg"]))) := by
  decide

/-- C2 amended: the invariant len(queue) ≤ total_count holds in every
state reached through the startup protocol and any number of main-loop
iterations, provided the loaded record (saved_count, saved_queue)
satisfies len(saved_queue) ≤ saved_count or its count differs from the
current collection size (the drift reset then clears the queue).  The
excluded case — a legacy record with a non-empty queue meeting a
collection of size 0, its loaded count — is exactly the counterexample
above. -/
theorem invariant_holds_reachable (listing : List String) (file : Option Persisted)
    (envs : List IterEnv)
    (h : (load_state file).2.length ≤ (load_state file).1 ∨
      listing.length ≠ (load_state file).1) :
    QInv (runFrom (startupState listing file) envs) :=
  runFrom_QInv envs (startupState listing file) (startup_QInv listing file h)

/-- C2 witness: one drift-reset startup followed by three iterations. -/
theorem invariant_holds_reachable_witness :
    QInv (runFrom (startupState ["x.jpg"] (some (Persisted.legacy ["a.jpg", "b.jpg"])))
      [⟨["x.jpg"], [0], true, true⟩, ⟨["x.jpg"], [0], true, true⟩,
       ⟨["x.jpg"], [0], true, false⟩]) :=
  invariant_holds_reachable ["x.jpg"] (some (Persisted.legacy ["a.jpg", "b.jpg"]))
    [⟨["x.jpg"], [0], true, true⟩, ⟨["x.jpg"], [0], true, true⟩,
     ⟨["x.jpg"], [0], true, false⟩] (by decide)

/-- C3: startup drift detection — when the current collection size
differs from the saved count the saved queue is discarded and the
current count becomes total_in_cycle; when the sizes agree the saved
queue is reused verbatim, in its saved order, and the current count
(equal to the saved one) becomes total_in_cycle. -/
theorem startup_drift_detection (listing : List String) (file : Option Persisted) :
    (listing.length ≠ (load_state file).1 →
      (startupState listing file).queue = [] ∧
      (startupState listing file).total = listing.length) ∧
    (listing.length = (load_state file).1 →
      (startupState listing file).queue = (load_state file).2 ∧
      (startupState listing file).total = listing.length) := by
  constructor
  · intro h
    simp [startupState, h]
  · intro h
    simp [startupState, h]

/-- C3 witness: a drifted startup (1 file against saved count 3)
discards the saved queue; a matching startup (3 files against saved
count 3) reuses it verbatim. -/
theorem startup_drift_detection_witness :
    (startupState ["a.jpg"] (some (Persisted.record (some 3) (some ["x.jpg"])))).queue = [] ∧
    (startupState ["a.jpg", "b.jpg", "c.jpg"]
      (some (Persisted.record (some 3) (some ["x.jpg"])))).queue = ["x.jpg"] :=
  ⟨((startup_drift_detection ["a.jpg"]
      (some (Persisted.record (some 3) (some ["x.jpg"])))).1 (by decide)).1,
   ((startup_drift_detection ["a.jpg", "b.jpg", "c.jpg"]
      (some (Persisted.record (some 3) (some ["x.jpg"])))).2 (by decide)).1⟩

/-- C4: display-failure retry — when the sink call fails for the popped
path, that path is back at the front of the queue (so it is the next one
popped), the persisted state is untouched and save_state did not run in
this iteration. -/
theorem display_failure_retry (e : IterEnv) (s : LoopState) (path : String)
    (rest : List String) (hq : s.queue = path :: rest)
    (hp : e.prepareOk = true) (hd : e.displayOk = false) :
    (mainStep e s).1.queue = path :: rest ∧
    (mainStep e s).1.queue.head? = some path ∧
    (mainStep e s).1.persisted = s.persisted ∧
    (mainStep e s).2.saved = false := by
  simp [mainStep, hq, serveNext, hp, hd]

/-- C4 witness: a concrete failed display leaves the queue and the
persisted record as they were. -/
theorem display_failure_retry_witness :
    (mainStep ⟨["z.jpg"], [], true, false⟩
        ⟨["a.jpg", "b.jpg"], 2,
         some (Persisted.record (some 2) (some ["a.jpg", "b.jpg"]))⟩).1.queue =
      ["a.jpg", "b.jpg"] ∧
    (mainStep ⟨["z.jpg"], [], true, false⟩
        ⟨["a.jpg", "b.jpg"], 2,
         some (Persisted.record (some 2) (some ["a.jpg", "b.jpg"]))⟩).1.queue.head? =
      some "a.jpg" ∧
    (mainStep ⟨["z.jpg"], [], true, false⟩
        ⟨["a.jpg", "b.jpg"], 2,
         some (Persisted.record (some 2) (some ["a.jpg", "b.jpg"]))⟩).1.persisted =
      some (Persisted.record (some 2) (some ["a.jpg", "b.jpg"])) ∧
    (mainStep ⟨["z.jpg"], [], true, false⟩
        ⟨["a.jpg", "b.jpg"], 2,
         some (Persisted.record (some 2) (some ["a.jpg", "b.jpg"]))⟩).2.saved = false :=
  display_failure_retry ⟨["z.jpg"], [], true, false⟩
    ⟨["a.jpg", "b.jpg"], 2, some (Persisted.record (some 2) (some ["a.jpg", "b.jpg"]))⟩
    "a.jpg" ["b.jpg"] rfl rfl rfl

/-- C5: monotonic consumption — a successful display pops exactly one
path off the queue it was selected from, and the state persisted right
after it is exactly the post-pop queue with the unchanged
total_in_cycle.  The first conjunct covers a served non-empty queue, the
second an iteration that refilled first: there the queue at selection
time has the collection size and the persisted total is that size. -/
theorem success_consumes_and_persists (e : IterEnv) (s : LoopState)
    (hp : e.prepareOk = true) (hd : e.displayOk = true) :
    (∀ path rest, s.queue = path :: rest →
      (mainStep e s).1.queue = rest ∧
      (mainStep e s).1.queue.length + 1 = s.queue.length ∧
      (mainStep e s).1.total = s.total ∧
      (mainStep e s).1.persisted = some (save_state rest s.total) ∧
      (mainStep e s).2.saved = true) ∧
    (s.queue = [] → e.listing ≠ [] →
      (mainStep e s).1.queue.length + 1 = e.listing.length ∧
      (mainStep e s).1.total = e.listing.length ∧
      (mainStep e s).1.persisted =
        some (save_state (mainStep e s).1.queue e.listing.length) ∧
      (mainStep e s).2.saved = true) := by
  constructor
  · intro path rest hq
    simp [mainStep, hq, serveNext, hp, hd]
  · intro hq hl
    have hlen := pyShuffle_length e.randoms e.listing
    cases hsh : pyShuffle e.randoms e.listing with
    | nil =>
      rw [hsh] at hlen
      exact absurd (List.length_eq_zero.mp hlen.symm) hl
    | cons p t =>
      rw [hsh] at hlen
      simp only [List.length_cons] at hlen
      simp [mainStep, hq, List.isEmpty_iff, hl, refill, hsh, serveNext, hp, hd, hlen]

/-- C5 witness: one successful display out of a two-element queue pops
one path and persists the one-element remainder with total 2. -/
theorem success_consumes_and_persists_witness :
    (mainStep ⟨["z.jpg"], [], true, true⟩ ⟨["a.jpg", "b.jpg"], 2, none⟩).1.queue =
      ["b.jpg"] ∧
    (mainStep ⟨["z.jpg"], [], true, true⟩
        ⟨["a.jpg", "b.jpg"], 2, none⟩).1.queue.length + 1 = 2 ∧
    (mainStep ⟨["z.jpg"], [], true, true⟩ ⟨["a.jpg", "b.jpg"], 2, none⟩).1.total = 2 ∧
    (mainStep ⟨["z.jpg"], [], true, true⟩ ⟨["a.jpg", "b.jpg"], 2, none⟩).1.persisted =
      some (save_state ["b.jpg"] 2) ∧
    (mainStep ⟨["z.jpg"], [], true, true⟩ ⟨["a.jpg", "b.jpg"], 2, none⟩).2.saved = true := by
  have h := (success_consumes_and_persists ⟨["z.jpg"], [], true, true⟩
    ⟨["a.jpg", "b.jpg"], 2, none⟩ rfl rfl).1 "a.jpg" ["b.jpg"] rfl
  exact ⟨h.1, h.2.1, h.2.2.1, h.2.2.2.1, h.2.2.2.2⟩

/-- C6: state-store round trip — saving any (queue, total_count) and
loading it back returns the identical pair, and for any persisted value
(current record shape, legacy bare list, or malformed) re-saving the
loaded pair and loading again reproduces that pair, so the legacy shape
also round-trips through the store. -/
theorem save_load_round_trip :
    (∀ (queue : List String) (total_count : Nat),
      load_state (some (save_state queue total_count)) = (total_count, queue)) ∧
    (∀ file : Option Persisted,
      load_state (some (save_state (load_state file).2 (load_state file).1)) =
        load_state file) := by
  exact ⟨fun q t => rfl, fun file => rfl⟩

/-- C7 counterexample: in a concrete iteration in which prepare_image
fails (returns None), the loop still performs the step-5 Wait — it
sleeps the configured interval at slideshow.py line 221, which is
executed unconditionally — refuting the claim that the Wait is not
performed for that iteration. -/
theorem render_failure_still_sleeps :
    (mainStep ⟨["z.jpg"], [], false, true⟩ ⟨["a.jpg", "b.jpg"], 2, none⟩).2.slept =
      SleepKind.interval := by
  decide

/-- C7 amended: when the Capture-Date Extractor or Image Compositor
fails inside prepare_image, the iteration displays nothing (the sink is
never called), persists nothing, drops the popped path for this pass
(it is not re-queued), and then performs the step-5 Wait like every
other iteration — the interval sleep is unconditional, not skipped. -/
theorem render_failure_skips_display (e : IterEnv) (s : LoopState) (path : String)
    (rest : List String) (hq : s.queue = path :: rest) (hp : e.prepareOk = false) :
    (mainStep e s).1.queue = rest ∧
    (mainStep e s).1.persisted = s.persisted ∧
    (mainStep e s).1.total = s.total ∧
    (mainStep e s).2.sinkCalled = false ∧
    (mainStep e s).2.saved = false ∧
    (mainStep e s).2.slept = SleepKind.interval := by
  simp [mainStep, hq, serveNext, hp]

/-- C7 witness: a concrete render failure drops the path, touches
nothing else and still sleeps the interval. -/
theorem render_failure_skips_display_witness :
    (mainStep ⟨["z.jpg"], [], false, true⟩
        ⟨["a.jpg", "b.jpg"], 2, some Persisted.other⟩).1.queue = ["b.jpg"] ∧
    (mainStep ⟨["z.jpg"], [], false, true⟩
        ⟨["a.jpg", "b.jpg"], 2, some Persisted.other⟩).1.persisted =
      some Persisted.other ∧
    (mainStep ⟨["z.jpg"], [], false, true⟩
        ⟨["a.jpg", "b.jpg"], 2, some Persisted.other⟩).1.total = 2 ∧
    (mainStep ⟨["z.jpg"], [], false, true⟩
        ⟨["a.jpg", "b.jpg"], 2, some Persisted.other⟩).2.sinkCalled = false ∧
    (mainStep ⟨["z.jpg"], [], false, true⟩
        ⟨["a.jpg", "b.jpg"], 2, some Persisted.other⟩).2.saved = false ∧
    (mainStep ⟨["z.jpg"], [], false, true⟩
        ⟨["a.jpg", "b.jpg"], 2, some Persisted.other⟩).2.slept = SleepKind.interval :=
  render_failure_skips_display ⟨["z.jpg"], [], false, true⟩
    ⟨["a.jpg", "b.jpg"], 2, some Persisted.other⟩ "a.jpg" ["b.jpg"] rfl rfl

/-! ## Capture-date extractor (extract_capture_date, slideshow.py 93-102)

The function first tests os.path.splitext(image_path)[1].lower() against
".png" and returns None without touching the file.  Otherwise piexif and
strptime run inside a try block whose except clause returns None; the
outcome of that external read is an input of the model.  The Lean
function is total, which is the embedded form of the never-raises
guarantee. -/

/-- Timestamp as produced by strptime with pattern Y:m:d H:M:S. -/
structure PyDateTime where
  year : Nat
  month : Nat
  day : Nat
  hour : Nat
  minute : Nat
  second : Nat
deriving DecidableEq, Repr

/-- Character lowering of str.lower restricted to ASCII, which is all
that file extensions contain. -/
def lowerChar (c : Char) : Char :=
  if 'A' ≤ c ∧ c ≤ 'Z' then Char.ofNat (c.toNat + 32) else c

/-- str.lower on ASCII strings. -/
def pyToLower (s : String) : String := String.mk (s.data.map lowerChar)

/-- Scan a reversed file name up to the first dot seen, which is the
last dot of the name: returns the reversed extension including its dot
together with the reversed remainder, or nothing when the name has no
dot. -/
def revExt : List Char → Option (List Char × List Char)
  | [] => none
  | c :: rest =>
    if c = '.' then some ([c], rest)
    else
      match revExt rest with
      | some (e, pre) => some (c :: e, pre)
      | none => none

/-- Extension part of os.path.splitext: the suffix of the last path
component from its last dot, except that a last component consisting of
leading dots only has no extension. -/
def pySplitextExt (path : String) : String :=
  let name := path.data.foldl (fun acc c => if c = '/' then [] else acc ++ [c]) []
  match revExt name.reverse with
  | some (e, pre) =>
    if pre.any (fun c => c ≠ '.') then String.mk e.reverse else ""
  | none => ""

/-- Possible outcomes of the piexif load and strptime parse inside the
try block: a successfully parsed DateTimeOriginal, an absent field, a
decode or parse exception, or an exception from piexif.load itself. -/
inductive ExifRead where
  | dateOk (d : PyDateTime)
  | noField
  | badParse
  | loadFails
deriving DecidableEq, Repr

/-- extract_capture_date (slideshow.py lines 93-102): the result pairs
the optional capture date with whether a metadata read was attempted at
all. -/
def extract_capture_date (image_path : String) (exif : ExifRead) :
    Option PyDateTime × Bool :=
  if pyToLower (pySplitextExt image_path) = ".png" then
    (none, false)
  else
    match exif with
    | ExifRead.dateOk d => (some d, true)
    | ExifRead.noField => (none, true)
    | ExifRead.badParse => (none, true)
    | ExifRead.loadFails => (none, true)

/-- C8: extractor totality — extract_capture_date is a total function
(the embedding of never raising to its caller); for a path whose
extension lowercases to .png it returns no date without attempting a
metadata read; a date comes back only from a successful parse, and every
failing read or parse outcome yields no date. -/
theorem extractor_never_raises (image_path : String) (exif : ExifRead) :
    (pyToLower (pySplitextExt image_path) = ".png" →
      extract_capture_date image_path exif = (none, false)) ∧
    ((extract_capture_date image_path exif).1.isSome →
      ∃ d, exif = ExifRead.dateOk d) ∧
    (extract_capture_date image_path ExifRead.loadFails).1 = none ∧
    (extract_capture_date image_path ExifRead.badParse).1 = none ∧
    (extract_capture_date image_path ExifRead.noField).1 = none := by
  unfold extract_capture_date
  by_cases hpng : pyToLower (pySplitextExt image_path) = ".png"
  · simp [hpng]
  · cases exif <;> simp [hpng]

/-- C8 witness: an upper-case .PNG path yields no date with no metadata
read even when the file would have parsed, and a load failure on a jpg
yields no date. -/
theorem extractor_never_raises_witness :
    extract_capture_date "IMG_0001.PNG" (ExifRead.dateOk ⟨2023, 1, 15, 10, 30, 0⟩) =
      (none, false) ∧
    (extract_capture_date "photo.jpg" ExifRead.loadFails).1 = none :=
  ⟨(extractor_never_raises "IMG_0001.PNG" (ExifRead.dateOk ⟨2023, 1, 15, 10, 30, 0⟩)).1
      (by decide),
   (extractor_never_raises "photo.jpg" ExifRead.loadFails).2.2.1⟩

/-! ## Date and elapsed-time labels (format_date_and_elapsed_time,
slideshow.py lines 104-114)

datetime subtraction is modelled through an absolute timestamp: days
from the civil calendar (proleptic Gregorian, the computation used by
every datetime implementation) times 86400 plus the seconds of the day.
timedelta normalizes so that .days is the floor of the difference in
days, hence Int.fdiv, which is also what Python floor division on the
day counts performs. -/

/-- Day number of a civil date, zero at 1970-01-01. -/
def daysFromCivil (year month day : Nat) : Int :=
  let y : Int := if month ≤ 2 then (year : Int) - 1 else (year : Int)
  let era : Int := y.fdiv 400
  let yoe : Int := y - era * 400
  let mp : Nat := if 2 < month then month - 3 else month + 9
  let doy : Int := ((153 * mp + 2) / 5 + day - 1 : Nat)
  let doe : Int := yoe * 365 + yoe.fdiv 4 - yoe.fdiv 100 + doy
  era * 146097 + doe - 719468

/-- Seconds since the epoch of a timestamp. -/
def toEpochSecs (t : PyDateTime) : Int :=
  daysFromCivil t.year t.month t.day * 86400 +
    (t.hour * 3600 + t.minute * 60 + t.second)

/-- The .days attribute of (now - capture_date): floor of the difference
in days. -/
def deltaDays (now capture_date : PyDateTime) : Int :=
  (toEpochSecs now - toEpochSecs capture_date).fdiv 86400

/-- Elapsed-time phrase of slideshow.py lines 108-113: years is
delta.days // 365; if positive the year phrase with a plural s exactly
when years exceeds one, otherwise months is delta.days // 30 with the
same pattern, otherwise the fixed within-a-month text. -/
def elapsedText (days : Int) : String :=
  let years := days.fdiv 365
  if 0 < years then
    toString years ++ " year" ++ (if 1 < years then "s" else "") ++ " ago"
  else
    let months := days.fdiv 30
    if 0 < months then
      toString months ++ " month" ++ (if 1 < months then "s" else "") ++ " ago"
    else "Within a month"

/-- Zero-padded two-digit field of strftime. -/
def pad2 (n : Nat) : String :=
  if n < 10 then "0" ++ toString n else toString n

/-- Zero-padded four-digit year field of strftime. -/
def pad4 (n : Nat) : String :=
  if n < 10 then "000" ++ toString n
  else if n < 100 then "00" ++ toString n
  else if n < 1000 then "0" ++ toString n
  else toString n

/-- format_date_and_elapsed_time (slideshow.py lines 104-114): both
labels are the unknown-date text when no capture date is available,
otherwise the strftime Y-m-d date and the elapsed phrase for the day
difference to now. -/
def format_date_and_elapsed_time (capture_date : Option PyDateTime)
    (now : PyDateTime) : String × String :=
  match capture_date with
  | none => ("Unknown date", "Unknown date")
  | some cap =>
    (pad4 cap.year ++ "-" ++ pad2 cap.month ++ "-" ++ pad2 cap.day,
     elapsedText (deltaDays now cap))

/-- Modelled from the spec: the coarse elapsed-time phrase described by
integer-day buckets — at least 365 days gives the year bucket with the
floor-divided count, at least 30 days the month bucket, anything less
the within-a-month text, singular and plural forms spelled out. -/
def elapsedPhraseSpec (days : Int) : String :=
  if 365 ≤ days then
    let years := days.fdiv 365
    if years = 1 then "1 year ago" else toString years ++ " years ago"
  else if 30 ≤ days then
    let months := days.fdiv 30
    if months = 1 then "1 month ago" else toString months ++ " months ago"
  else "Within a month"

theorem fdiv_365_pos (days : Int) : 0 < days.fdiv 365 ↔ 365 ≤ days := by
  rw [Int.fdiv_eq_ediv _ (by norm_num)]
  omega

theorem fdiv_30_pos (days : Int) : 0 < days.fdiv 30 ↔ 30 ≤ days := by
  rw [Int.fdiv_eq_ediv _ (by norm_num)]
  omega

theorem elapsedText_eq_spec (days : Int) : elapsedText days = elapsedPhraseSpec days := by
  unfold elapsedText elapsedPhraseSpec
  by_cases h365 : 365 ≤ days
  · have hy : 0 < days.fdiv 365 := (fdiv_365_pos days).mpr h365
    simp only [hy, if_true, h365]
    by_cases h1 : days.fdiv 365 = 1
    · rw [h1]
      rfl
    · have h1' : 1 < days.fdiv 365 := by omega
      simp only [h1, h1', if_true, if_false]
      rw [String.append_assoc, String.append_assoc]
      rfl
  · have hy : ¬ 0 < days.fdiv 365 := fun h => h365 ((fdiv_365_pos days).mp h)
    simp only [hy, if_false, h365]
    by_cases h30 : 30 ≤ days
    · have hm : 0 < days.fdiv 30 := (fdiv_30_pos days).mpr h30
      simp only [hm, if_true, h30]
      by_cases h1 : days.fdiv 30 = 1
      · rw [h1]
        rfl
      · have h1' : 1 < days.fdiv 30 := by omega
        simp only [h1, h1', if_true, if_false]
        rw [String.append_assoc, String.append_assoc]
        rfl
    · have hm : ¬ 0 < days.fdiv 30 := fun h => h30 ((fdiv_30_pos days).mp h)
      simp [hy, hm, h30]

/-- C9: elapsed-time labels — the elapsed line of the label pair is
exactly the integer-day bucket phrase of the spec for the day difference
between now and the capture date; both lines are the unknown-date text
when no capture date is available; and the capture date 2023-01-15 seen
from 2024-02-20 yields the phrase of one year ago. -/
theorem elapsed_time_labels :
    (∀ now, format_date_and_elapsed_time none now = ("Unknown date", "Unknown date")) ∧
    (∀ cap now, (format_date_and_elapsed_time (some cap) now).2 =
      elapsedPhraseSpec (deltaDays now cap)) ∧
    (∀ cap now, (format_date_and_elapsed_time (some cap) now).1 =
      pad4 cap.year ++ "-" ++ pad2 cap.month ++ "-" ++ pad2 cap.day) ∧
    (format_date_and_elapsed_time (some ⟨2023, 1, 15, 0, 0, 0⟩)
      ⟨2024, 2, 20, 12, 0, 0⟩).2 = "1 year ago" := by
  refine ⟨fun now => rfl, fun cap now => elapsedText_eq_spec (deltaDays now cap),
    fun cap now => rfl, ?_⟩
  decide

end Slideshow

namespace Preprocess

/-! ## Batch preprocessor (process_one_image, preprocess_inky73.py 82-132)

pathlib paths are modelled as a stem plus a suffix; with_suffix replaces
the suffix.  The output directory content is a list of paths; the image
work itself (open, orient, resize, save) is summarised by a success
flag, since only the skip check and the name of the written file matter
to the claim. -/

/-- A pathlib path split the way Path.suffix and Path.with_suffix see
it: the part before the suffix and the suffix itself. -/
structure PPath where
  stem : String
  suffix : String
deriving DecidableEq, Repr

/-- Path.with_suffix. -/
def withSuffix (p : PPath) (s : String) : PPath :=
  { stem := p.stem, suffix := s }

/-- The suffix process_one_image saves under, from lines 104-127: .png
when the lowercased source suffix is .png, otherwise .jpg. -/
def outSuffix (src : PPath) : String :=
  if Slideshow.pyToLower src.suffix = ".png" then ".png" else ".jpg"

/-- process_one_image (preprocess_inky73.py lines 82-132) acting on the
output file system: when overwrite is not set and dst_path exists the
file is skipped; otherwise, if the image processing succeeds, the
result is written to dst_path.with_suffix of the normalized extension.
Returns whether the skip branch fired and the new file-system content. -/
def process_one_image (src dst : PPath) (overwrite : Bool) (openOk : Bool)
    (fs : List PPath) : Bool × List PPath :=
  if ¬ overwrite = true ∧ dst ∈ fs then
    (true, fs)
  else if openOk then
    (false, withSuffix dst (outSuffix src) :: fs)
  else
    (false, fs)

/-- File-system content after k successful reruns of process_one_image
on the same source, without overwrite. -/
def fsAfterRuns (src dst : PPath) (fs : List PPath) : Nat → List PPath
  | 0 => fs
  | k + 1 => (process_one_image src dst false true (fsAfterRuns src dst fs k)).2

/-- C10: in the batch preprocessor the output is always written under
the normalized extension, while the skip-when-exists check tests the
destination path with the original suffix; hence for a source whose
suffix is not the normalized one and a destination not initially
present, the skip branch never fires on any rerun — every run
reprocesses the file and rewrites the normalized output. -/
theorem skip_check_misses_normalized_output (src dst : PPath) (fs : List PPath)
    (hsuf : dst.suffix = src.suffix) (hnorm : src.suffix ≠ outSuffix src)
    (h0 : dst ∉ fs) :
    ∀ k : Nat,
      dst ∉ fsAfterRuns src dst fs k ∧
      (process_one_image src dst false true (fsAfterRuns src dst fs k)).1 = false ∧
      (process_one_image src dst false true (fsAfterRuns src dst fs k)).2 =
        withSuffix dst (outSuffix src) :: fsAfterRuns src dst fs k := by
  have hne : dst ≠ withSuffix dst (outSuffix src) := by
    intro h
    have : dst.suffix = outSuffix src := congrArg PPath.suffix h
    rw [hsuf] at this
    exact hnorm this
  intro k
  induction k with
  | zero =>
    refine ⟨h0, ?_, ?_⟩ <;> simp [process_one_image, fsAfterRuns, h0]
  | succ k ih =>
    have hmem : dst ∉ fsAfterRuns src dst fs (k + 1) := by
      show dst ∉ (process_one_image src dst false true (fsAfterRuns src dst fs k)).2
      rw [ih.2.2]
      intro hm
      rcases List.mem_cons.mp hm with h | h
      · exact hne h
      · exact ih.1 h
    refine ⟨hmem, ?_, ?_⟩ <;> simp [process_one_image, hmem]

/-- C10 witness: a .jpeg source is rewritten as .jpg, so the first and
the second run both reprocess it. -/
theorem skip_check_misses_normalized_output_witness :
    (⟨"/out/p", ".jpeg"⟩ : PPath) ∉
      fsAfterRuns ⟨"/in/p", ".jpeg"⟩ ⟨"/out/p", ".jpeg"⟩ [] 1 ∧
    (process_one_image ⟨"/in/p", ".jpeg"⟩ ⟨"/out/p", ".jpeg"⟩ false true
      (fsAfterRuns ⟨"/in/p", ".jpeg"⟩ ⟨"/out/p", ".jpeg"⟩ [] 1)).1 = false ∧
    (process_one_image ⟨"/in/p", ".jpeg"⟩ ⟨"/out/p", ".jpeg"⟩ false true
      (fsAfterRuns ⟨"/in/p", ".jpeg"⟩ ⟨"/out/p", ".jpeg"⟩ [] 1)).2 =
      withSuffix ⟨"/out/p", ".jpeg"⟩ (outSuffix ⟨"/in/p", ".jpeg"⟩) ::
        fsAfterRuns ⟨"/in/p", ".jpeg"⟩ ⟨"/out/p", ".jpeg"⟩ [] 1 :=
  skip_check_misses_normalized_output ⟨"/in/p", ".jpeg"⟩ ⟨"/out/p", ".jpeg"⟩ []
    rfl (by decide) (by decide) 1

end Preprocess
